import Mathlib

/-!
Shallow embedding of `clothing_crawler.py`: the sanitize helper, the
extraction engine, the enumeration (infinite-scroll) loop, category
discovery from the navigation document, and the persistence layer
(SQLite tables modelled as row lists, the JSON document sink modelled
as an association list from paths to documents).

External collaborators (requests, BeautifulSoup, Selenium, SQLite) are
modelled by explicit data: a detail page is a record of the optional
marker texts `soup.find` would return, a scroll iteration is a snapshot
of the rendered cards plus the page height, and download / per-card
failures are explicit flags standing for the exceptions the code
catches.
-/

/-- The whitespace removed by Python `str.strip()`. -/
def isPySpace (c : Char) : Bool :=
  c = ' ' || c = '\t' || c = '\n' || c = '\r' || c = '\x0b' || c = '\x0c'

/-- Model of Python `str.strip()`. -/
def pyStrip (s : String) : String :=
  String.mk (((s.data.dropWhile isPySpace).reverse.dropWhile isPySpace).reverse)

/-- Lower-casing of one ASCII character, as `str.lower()` does on the
letters the claims exercise. -/
def lowerChar (c : Char) : Char :=
  if 'A' ≤ c ∧ c ≤ 'Z' then Char.ofNat (c.toNat + 32) else c

/-- Model of Python `str.lower()`. -/
def pyLower (s : String) : String := String.mk (s.data.map lowerChar)

/-- Model of `os.path.join` for two components. -/
def joinPath (a b : String) : String := a ++ "/" ++ b

/-- Model of `urllib.parse.urljoin BASE_URL u`: an absolute link is kept,
a relative one is resolved against the base. -/
def urljoin (base u : String) : String :=
  if "http".data.isPrefixOf u.data then u else base ++ u

/-- Python `\w` of the sanitize regex, modelled over the code points the
claims exercise: alphanumerics and the underscore. -/
def isWordChar (c : Char) : Bool := c.isAlphanum || c = '_'

/-- The character class `[\w\-\_؀-ۿ ]` kept by
`sanitize_filename`. -/
def isSanitizeKept (c : Char) : Bool :=
  isWordChar c || c = '-' || c = '_' ||
    (0x600 ≤ c.toNat && c.toNat ≤ 0x6FF) || c = ' '

/-- One character of the substitution: the regex class above is kept,
anything else becomes an underscore. -/
def sanitizeChar (c : Char) : Char := if isSanitizeKept c then c else '_'

/-- Model of `sanitize_filename`: every character outside the kept class is
replaced by an underscore. Total by construction, as the Python
`re.sub` is. -/
def sanitize_filename (s : String) : String :=
  String.mk (s.data.map sanitizeChar)

/-- Python dict assignment `d[k] = v` on an insertion-ordered
association list: overwrite in place, or append a fresh key. -/
def dictSet {α : Type} (m : List (String × α)) (k : String) (v : α) :
    List (String × α) :=
  if m.any (fun p => p.1 == k) then
    m.map (fun p => if p.1 == k then (k, v) else p)
  else m ++ [(k, v)]

/-- The configured base URL resolves links; the assets root is fixed. -/
def ASSETS_FOLDER : String := "assets"

/-- One `li.c-product__specs-table-item`: the optional title marker and
the value markers found under it. -/
structure SpecItem where
  key : Option String
  values : List String
deriving DecidableEq

/-- One `img.c-product-page__gallery-image` tag: its optional `src`
attribute, plus a flag standing for a download failure
(`requests.exceptions.RequestException`) when it is fetched. -/
structure ImgTag where
  src : Option String
  downloadFails : Bool
deriving DecidableEq

/-- A parsed detail page: what each `soup.find` of
`extract_product_metadata` would return (`none` = marker absent). -/
structure DetailPage where
  subtitle : Option String
  sellingPrice : Option String
  rrpPrice : Option String
  discountPercent : Option String
  description : Option String
  specsTable : Option (List SpecItem)
  featuresContent : Option String
  galleryImages : List ImgTag
deriving DecidableEq

/-- The metadata dict dumped to `<product_id>.json`. -/
structure Metadata where
  product_id : String
  main_category : String
  sub_category : String
  nested_category : String
  title : String
  price : Option String
  old_price : Option String
  discount : Option String
  description : Option String
  specifications : List (String × String)
  additional_details : Option String
  images : List String
deriving DecidableEq

/-- The JSON document sink: an association list from paths to the
document last written there.  `open(path, "w")` shadows any earlier
write, so a write prepends and a lookup takes the first match. -/
abbrev FS := List (String × Metadata)

/-- Model of the json dump into the opened file: overwrite-on-conflict. -/
def fsWrite (fs : FS) (path : String) (doc : Metadata) : FS :=
  (path, doc) :: fs

/-- Reading back the document at a path. -/
def fsLookup (fs : FS) (path : String) : Option Metadata :=
  (fs.find? (fun q => q.1 == path)).map (fun q => q.2)

/-- One row of the `products` table. -/
structure ProductRow where
  main_category : String
  sub_category : String
  nested_category : String
  product_id : String
  title : String
  price : Option String
  old_price : Option String
  discount : Option String
  description : Option String
  additional_details : Option String
  specs : List (String × String)
  images : List String
  json_path : String
deriving DecidableEq

/-- The `UNIQUE (main_category, sub_category, nested_category,
product_id)` key of the `products` table. -/
def sameProductKey (r : ProductRow) (m s n pid : String) : Bool :=
  r.main_category == m && r.sub_category == s &&
    r.nested_category == n && r.product_id == pid

/-- Model of `INSERT OR IGNORE INTO products`: a row whose unique key is
already present is dropped, otherwise it is appended. -/
def insertOrIgnoreProduct (db : List ProductRow) (r : ProductRow) :
    List ProductRow :=
  if db.any (fun r0 => sameProductKey r0 r.main_category r.sub_category
      r.nested_category r.product_id)
  then db else db ++ [r]

/-- One row of the `categories` table. -/
structure CatRow where
  main_category : String
  sub_category : String
  url : String
deriving DecidableEq

/-- The `UNIQUE (main_category, sub_category)` key of `categories`. -/
def sameCategoryKey (r : CatRow) (m s : String) : Bool :=
  r.main_category == m && r.sub_category == s

/-- Model of `INSERT OR IGNORE INTO categories`. -/
def insertOrIgnoreCategory (db : List CatRow) (m s u : String) :
    List CatRow :=
  if db.any (fun r => sameCategoryKey r m s) then db
  else db ++ [CatRow.mk m s u]

/-- Model of `save_image`: returns the saved path, or
`none` when the download fails (the caught `RequestException`). -/
def save_image (url : String) (folder filename : String) (fails : Bool) :
    Option String :=
  if fails then none else some (joinPath folder filename)

/-- The specs dict of `extract_product_metadata`: items without a title
marker are skipped; values are stripped and joined with `", "`;
insertion into the dict follows document order. -/
def buildSpecs (items : List SpecItem) : List (String × String) :=
  items.foldl
    (fun specs item =>
      match item.key with
      | none => specs
      | some k =>
          dictSet specs (pyStrip k)
            (String.intercalate ", " (item.values.map (fun v => pyStrip v))))
    []

/-- The image loop of `extract_product_metadata`: `enumerate` keeps
counting over every tag; the Python truthiness guard skips a tag whose
src is absent or the empty string; a failed download is skipped; a
successful one appends its saved path. -/
def buildImages (base pid folder : String) : Nat → List ImgTag → List String
  | _, [] => []
  | idx, img :: rest =>
    match img.src with
    | none => buildImages base pid folder (idx + 1) rest
    | some u =>
      if u = "" then buildImages base pid folder (idx + 1) rest
      else
        match save_image (urljoin base u) folder
            (pid ++ "_image_" ++ toString (idx + 1) ++ ".jpg")
            img.downloadFails with
        | none => buildImages base pid folder (idx + 1) rest
        | some p => p :: buildImages base pid folder (idx + 1) rest

/-- The `product_folder` path: `assets/<san main>/<san sub>/<san nested>/<pid>`. -/
def product_folder_path (m s n pid : String) : String :=
  joinPath (joinPath (joinPath (joinPath ASSETS_FOLDER
    (sanitize_filename m)) (sanitize_filename s)) (sanitize_filename n)) pid

/-- The `json_path`: `<product_folder>/<pid>.json`. -/
def json_path_of (m s n pid : String) : String :=
  joinPath (product_folder_path m s n pid) (pid ++ ".json")

/-- The metadata dict assembled by `extract_product_metadata`: a missing
title marker yields the sentinel, every other missing marker yields
`None`, present markers are stripped. -/
def metadataOf (base : String) (page : DetailPage) (m s n pid : String) :
    Metadata :=
  { product_id := pid
    main_category := m
    sub_category := s
    nested_category := n
    title := match page.subtitle with
      | some t => pyStrip t
      | none => "No Title Found"
    price := page.sellingPrice.map (fun t => pyStrip t)
    old_price := page.rrpPrice.map (fun t => pyStrip t)
    discount := page.discountPercent.map (fun t => pyStrip t)
    description := page.description.map (fun t => pyStrip t)
    specifications := match page.specsTable with
      | none => []
      | some items => buildSpecs items
    additional_details := page.featuresContent.map (fun t => pyStrip t)
    images := buildImages base pid (product_folder_path m s n pid) 0
      page.galleryImages }

/-- The `products` row built from the same fields (specs and images are
stored serialized by `json.dumps`; the model keeps them structured). -/
def productRowOf (base : String) (page : DetailPage) (m s n pid : String) :
    ProductRow :=
  { main_category := m
    sub_category := s
    nested_category := n
    product_id := pid
    title := (metadataOf base page m s n pid).title
    price := (metadataOf base page m s n pid).price
    old_price := (metadataOf base page m s n pid).old_price
    discount := (metadataOf base page m s n pid).discount
    description := (metadataOf base page m s n pid).description
    additional_details := (metadataOf base page m s n pid).additional_details
    specs := (metadataOf base page m s n pid).specifications
    images := (metadataOf base page m s n pid).images
    json_path := json_path_of m s n pid }

/-- Model of `extract_product_metadata`:
extracts the fields, writes the JSON document (overwrite), then runs
`INSERT OR IGNORE` into `products`.  Returns the new table, the new
document store and the metadata. -/
def extract_product_metadata (base : String) (page : DetailPage)
    (m s n pid : String) (db : List ProductRow) (fs : FS) :
    List ProductRow × FS × Metadata :=
  (insertOrIgnoreProduct db (productRowOf base page m s n pid),
   fsWrite fs (json_path_of m s n pid) (metadataOf base page m s n pid),
   metadataOf base page m s n pid)

/-- One rendered product card of `driver.find_elements(...)`:
`data-product-id` (absent or empty string = falsy in Python), a flag for
`find_element` raising on the link lookup, the detail-page link, the
detail page behind it and a flag for `extract_product_metadata` raising
(network failure). -/
structure Card where
  productId : Option String
  linkFails : Bool
  link : String
  detail : DetailPage
  extractFails : Bool
deriving DecidableEq

/-- One scroll iteration: the page height after the scroll and the cards
rendered at that point. -/
structure Snapshot where
  height : Nat
  cards : List Card
deriving DecidableEq

/-- The loop state of `crawl_products`: counter, seen set, the sequence
of (identity, detail URL) pairs whose extraction was attempted, and the
threaded `products` table. -/
structure CrawlState where
  crawled_count : Nat
  products_seen : List String
  processed : List (String × String)
  products : List ProductRow
deriving DecidableEq

/-- The per-card body of `crawl_products`: a falsy or already-seen id is
skipped; a failing link lookup is caught and skipped; otherwise the id
is marked seen and counted, then extraction is attempted (a raising
extraction is caught, keeping the count and the seen mark). -/
def processCard (base m s n : String) (st : CrawlState × FS) (c : Card) :
    CrawlState × FS :=
  match c.productId with
  | none => st
  | some pid =>
    if pid ≠ "" ∧ pid ∉ st.1.products_seen then
      if c.linkFails then st
      else
        let st1 : CrawlState :=
          { crawled_count := st.1.crawled_count + 1
            products_seen := pid :: st.1.products_seen
            processed := st.1.processed ++ [(pid, c.link)]
            products := st.1.products }
        if c.extractFails then (st1, st.2)
        else
          let r := extract_product_metadata base c.detail m s n pid
            st1.products st.2
          ({ st1 with products := r.1 }, r.2.1)
    else st

/-- The inner `for product in product_elements` loop, with its
`if crawled_count >= N: break` guard before each card. -/
def processCards (N : Nat) (base m s n : String) :
    CrawlState × FS → List Card → CrawlState × FS
  | st, [] => st
  | st, c :: cs =>
    if N ≤ st.1.crawled_count then st
    else processCards N base m s n (processCard base m s n st c) cs

/-- The `while crawled_count < N` scroll loop: each iteration scrolls
(consuming one snapshot), processes the rendered cards, and stops when
the height did not change.  The second component counts the scroll
actions performed. -/
def crawlLoop (N : Nat) (base m s n : String) :
    List Snapshot → CrawlState × FS → Nat → (CrawlState × FS) × Nat
  | [], st, _ => (st, 0)
  | snap :: rest, st, last_height =>
    if st.1.crawled_count < N then
      let st1 := processCards N base m s n st snap.cards
      if snap.height = last_height then (st1, 1)
      else
        let r := crawlLoop N base m s n rest st1 snap.height
        (r.1, r.2 + 1)
    else (st, 0)

/-- Model of `crawl_products`: fresh counter,
empty seen set, then the scroll loop over the page snapshots. -/
def crawl_products (N : Nat) (base m s n : String)
    (snaps : List Snapshot) (initial_height : Nat)
    (db : List ProductRow) (fs : FS) : (CrawlState × FS) × Nat :=
  crawlLoop N base m s n snaps (CrawlState.mk 0 [] [] db, fs) initial_height

/-- One `a.c-mega-menu__link`: its text and optional `href` attribute
(`sub_sub["href"]` raises `KeyError` when absent). -/
structure LeafLink where
  text : String
  href : Option String
deriving DecidableEq

/-- One `li.c-mega-menu__tab`: the optional tab-title marker and its
leaf links. -/
structure TabNode where
  tabTitle : Option String
  links : List LeafLink
deriving DecidableEq

/-- One `li.c-header__supercat`: the optional title-link marker and its
tabs (`find(...).text` raises `AttributeError` when `find` returns
`None`). -/
structure SupercatNode where
  titleLink : Option String
  tabs : List TabNode
deriving DecidableEq

/-- Python `categories[main][sub]`: an ordered list of (nested name, leaf URL). -/
abbrev SubCats := List (String × List (String × String))

/-- The full parsed mapping main → sub → leaves. -/
abbrev Categories := List (String × SubCats)

/-- The leaf loop of `parse_categories`: `sub_sub["href"]` raises on a
missing attribute, otherwise the stripped text and resolved URL are
appended. -/
def parseLeaves (base : String) : List LeafLink →
    Except String (List (String × String))
  | [] => Except.ok []
  | l :: ls =>
    match l.href with
    | none => Except.error "KeyError: href"
    | some h =>
      match parseLeaves base ls with
      | Except.error e => Except.error e
      | Except.ok rest => Except.ok ((pyStrip l.text, urljoin base h) :: rest)

/-- The tab loop of `parse_categories`: a missing tab-title marker
raises; otherwise the sub-category entry is set to its parsed leaves. -/
def parseTabs (base : String) : SubCats → List TabNode →
    Except String SubCats
  | subdict, [] => Except.ok subdict
  | subdict, t :: ts =>
    match t.tabTitle with
    | none => Except.error "AttributeError: tab title"
    | some tt =>
      match parseLeaves base t.links with
      | Except.error e => Except.error e
      | Except.ok leaves => parseTabs base (dictSet subdict (pyStrip tt) leaves) ts

/-- The supercat loop of `parse_categories`: a missing title-link marker
raises; otherwise the main entry is set to its parsed sub-dict. -/
def parseSupercats (base : String) : Categories → List SupercatNode →
    Except String Categories
  | cats, [] => Except.ok cats
  | cats, mc :: mcs =>
    match mc.titleLink with
    | none => Except.error "AttributeError: supercat link"
    | some t =>
      match parseTabs base [] mc.tabs with
      | Except.error e => Except.error e
      | Except.ok subdict => parseSupercats base (dictSet cats (pyStrip t) subdict) mcs

/-- Model of `parse_categories`: builds the mapping, propagating the
`AttributeError`/`KeyError` a missing marker raises. -/
def parse_categories (base : String) (doc : List SupercatNode) :
    Except String Categories :=
  parseSupercats base [] doc

/-- A navigation document in which every marker the parser dereferences
is present. -/
def navWellFormed (doc : List SupercatNode) : Bool :=
  doc.all (fun mc => mc.titleLink.isSome &&
    mc.tabs.all (fun t => t.tabTitle.isSome &&
      t.links.all (fun l => l.href.isSome)))

/-- Whether an `Except` computation returned normally. -/
def exceptOk {α : Type} : Except String α → Bool
  | Except.ok _ => true
  | Except.error _ => false

/-- The SQLite database: the two tables. -/
structure DBState where
  categories : List CatRow
  products : List ProductRow
deriving DecidableEq

/-- The crawled site: the navigation document and, per leaf URL, the
initial page height and the scroll snapshots. -/
structure Site where
  nav : List SupercatNode
  pages : List (String × (Nat × List Snapshot))
deriving DecidableEq

/-- The scroll data the browser session yields for a leaf URL. -/
def sitePage (site : Site) (url : String) : Nat × List Snapshot :=
  match site.pages.find? (fun p => p.1 == url) with
  | some p => p.2
  | none => (0, [])

/-- The per-leaf body of the crawl loop of `crawl_categories`:
`INSERT OR IGNORE` of the category row, then `crawl_products`. -/
def crawlLeaf (base : String) (N : Nat) (site : Site) (m s : String)
    (leaf : String × String) (st : DBState × FS) : DBState × FS :=
  let cats1 := insertOrIgnoreCategory st.1.categories m s leaf.2
  let page := sitePage site leaf.2
  let r := crawl_products N base m s leaf.1 page.2 page.1 st.1.products st.2
  (DBState.mk cats1 r.1.1.products, r.1.2)

/-- The triple loop of `crawl_categories` over the parsed mapping. -/
def crawlTree (base : String) (N : Nat) (site : Site)
    (cats : Categories) (db : DBState) (fs : FS) : DBState × FS :=
  cats.foldl
    (fun st mainEntry =>
      mainEntry.2.foldl
        (fun st2 subEntry =>
          subEntry.2.foldl
            (fun st3 leaf => crawlLeaf base N site mainEntry.1 subEntry.1
              leaf st3)
            st2)
        st)
    (db, fs)

/-- Model of `crawl_categories`: parse the navigation (may raise), display the
tree, require an affirmative `yes` at the prompt, then crawl every
leaf. -/
def crawl_categories (base : String) (N : Nat) (site : Site)
    (confirm : String) (db : DBState) (fs : FS) :
    Except String (DBState × FS) :=
  match parse_categories base site.nav with
  | Except.error e => Except.error e
  | Except.ok cats =>
    if pyLower (pyStrip confirm) ≠ "yes" then Except.ok (db, fs)
    else Except.ok (crawlTree base N site cats db fs)

/-- The module-level initialization: `CREATE TABLE IF NOT EXISTS
categories` keeps existing rows; `DROP TABLE IF EXISTS products` then
`CREATE TABLE` leaves an empty products table. -/
def moduleInit (db : DBState) : DBState := DBState.mk db.categories []

/-- A whole process run: initialization, then `crawl_categories()`. -/
def runProcess (base : String) (N : Nat) (site : Site) (confirm : String)
    (db : DBState) (fs : FS) : Except String (DBState × FS) :=
  crawl_categories base N site confirm (moduleInit db) fs

/-- A detail page with every optional marker absent. -/
def emptyPage : DetailPage :=
  DetailPage.mk none none none none none none none []

/-- Concrete cards for the enumeration scenarios. -/
def cardA1 : Card := Card.mk (some "A1") false "u1" emptyPage false

def cardA2 : Card := Card.mk (some "A2") false "u2" emptyPage false

def cardA1fail : Card := Card.mk (some "A1") false "u1" emptyPage true

/-- The C1 scenario stream: identities A1, A2, A1 over three scroll
iterations, strictly growing heights. -/
def scenarioSnaps : List Snapshot :=
  [Snapshot.mk 1 [cardA1], Snapshot.mk 2 [cardA2], Snapshot.mk 3 [cardA1]]

/-- The C10 scenario stream: a card whose extraction raises, then a
healthy card, rendered in one iteration. -/
def failSnaps : List Snapshot :=
  [Snapshot.mk 1 [cardA1fail, cardA2]]

/-- A well-formed one-leaf navigation document. -/
def navSample : List SupercatNode :=
  [SupercatNode.mk (some "Men")
    [TabNode.mk (some "Shirts") [LeafLink.mk "Casual" (some "/casual")]]]

/-- A navigation document with two leaves under one (main, sub) pair. -/
def navTwoLeaves : List SupercatNode :=
  [SupercatNode.mk (some "Men")
    [TabNode.mk (some "Shirts")
      [LeafLink.mk "A" (some "/u1"), LeafLink.mk "B" (some "/u2")]]]

/-- A pre-existing products row (for the C5 counterexample). -/
def sampleRow : ProductRow :=
  ProductRow.mk "M" "S" "N" "P1" "T" none none none none none [] []
    "assets/M/S/N/P1/P1.json"

/-- A pre-existing categories row. -/
def sampleCatRow : CatRow := CatRow.mk "M" "S" "https://x/u"

/-- The category row the `navSample` run writes. -/
def catRowMen : CatRow := CatRow.mk "Men" "Shirts" "https://x/casual"

/-! ## Helper lemmas -/

theorem sanitizeChar_idem (c : Char) :
    sanitizeChar (sanitizeChar c) = sanitizeChar c := by
  by_cases h : isSanitizeKept c = true
  · simp [sanitizeChar, h]
  · simp [sanitizeChar, h]

theorem sanitize_filename_idem (x : String) :
    sanitize_filename (sanitize_filename x) = sanitize_filename x := by
  show String.mk ((x.data.map sanitizeChar).map sanitizeChar)
      = String.mk (x.data.map sanitizeChar)
  rw [List.map_map]
  exact congrArg String.mk
    (List.map_congr_left (fun a _ => sanitizeChar_idem a))

theorem productRowOf_key_present (db : List ProductRow) (base : String)
    (page : DetailPage) (m s n pid : String) :
    (insertOrIgnoreProduct db (productRowOf base page m s n pid)).any
      (fun r0 => sameProductKey r0 m s n pid) = true := by
  unfold insertOrIgnoreProduct
  split
  · next h => exact h
  · simp [sameProductKey, productRowOf, List.any_append]

theorem productRowOf_insert_ignored (db : List ProductRow) (base : String)
    (page : DetailPage) (m s n pid : String)
    (h : db.any (fun r0 => sameProductKey r0 m s n pid) = true) :
    insertOrIgnoreProduct db (productRowOf base page m s n pid) = db := by
  show (if (db.any fun r0 => sameProductKey r0 m s n pid) = true then db
      else db ++ [productRowOf base page m s n pid]) = db
  rw [if_pos h]

theorem fsLookup_fsWrite (fs : FS) (p : String) (d : Metadata) :
    fsLookup (fsWrite fs p d) p = some d := by
  simp [fsLookup, fsWrite, List.find?]

/-- The loop invariant of `crawl_products`: the attempted pairs match the
seen set (in order), the seen set has no duplicates, the counter equals
its size and never exceeds the cap. -/
def crawlInv (N : Nat) (st : CrawlState) : Prop :=
  st.processed.map Prod.fst = st.products_seen.reverse ∧
  st.products_seen.Nodup ∧
  st.crawled_count = st.products_seen.length ∧
  st.crawled_count ≤ N

theorem processCard_inv (N : Nat) (base m s n : String) (c : Card)
    (st : CrawlState) (fs : FS) (hinv : crawlInv N st)
    (hlt : st.crawled_count < N) :
    crawlInv N (processCard base m s n (st, fs) c).1 := by
  obtain ⟨h1, h2, h3, h4⟩ := hinv
  cases hc : c.productId with
  | none => simp only [processCard, hc]; exact ⟨h1, h2, h3, h4⟩
  | some pid =>
    simp only [processCard, hc]
    by_cases hg : pid ≠ "" ∧ pid ∉ st.products_seen
    · rw [if_pos hg]
      have hstep : crawlInv N
          (CrawlState.mk (st.crawled_count + 1) (pid :: st.products_seen)
            (st.processed ++ [(pid, c.link)]) st.products) := by
        refine ⟨?_, ?_, ?_, ?_⟩
        · show (st.processed ++ [(pid, c.link)]).map Prod.fst
              = (pid :: st.products_seen).reverse
          rw [List.map_append, h1, List.reverse_cons]
          rfl
        · exact List.Nodup.cons hg.2 h2
        · show st.crawled_count + 1 = st.products_seen.length + 1
          rw [h3]
        · exact hlt
      cases hl : c.linkFails with
      | true => simp only [if_pos rfl]; exact ⟨h1, h2, h3, h4⟩
      | false =>
        simp only [Bool.false_eq_true, if_neg, if_false]
        cases he : c.extractFails with
        | true => simp only [if_pos rfl]; exact hstep
        | false => simp only [Bool.false_eq_true, if_neg, if_false]; exact hstep
    · rw [if_neg hg]; exact ⟨h1, h2, h3, h4⟩

theorem processCards_inv (N : Nat) (base m s n : String) (cs : List Card) :
    ∀ (st : CrawlState) (fs : FS), crawlInv N st →
      crawlInv N (processCards N base m s n (st, fs) cs).1 := by
  induction cs with
  | nil => intro st fs h; exact h
  | cons c cs ih =>
    intro st fs h
    by_cases hge : N ≤ st.crawled_count
    · simp only [processCards, if_pos hge]; exact h
    · simp only [processCards, if_neg hge]
      have hlt : st.crawled_count < N := Nat.lt_of_not_le hge
      have h' := processCard_inv N base m s n c st fs h hlt
      exact ih (processCard base m s n (st, fs) c).1
        (processCard base m s n (st, fs) c).2 h'

theorem crawlLoop_inv (N : Nat) (base m s n : String) (snaps : List Snapshot) :
    ∀ (st : CrawlState) (fs : FS) (h0 : Nat), crawlInv N st →
      crawlInv N (crawlLoop N base m s n snaps (st, fs) h0).1.1 := by
  induction snaps with
  | nil => intro st fs h0 h; exact h
  | cons snap rest ih =>
    intro st fs h0 h
    by_cases hlt : st.crawled_count < N
    · simp only [crawlLoop, if_pos hlt]
      by_cases hh : snap.height = h0
      · simp only [if_pos hh]
        exact processCards_inv N base m s n snap.cards st fs h
      · simp only [if_neg hh]
        have h' := processCards_inv N base m s n snap.cards st fs h
        exact ih (processCards N base m s n (st, fs) snap.cards).1
          (processCards N base m s n (st, fs) snap.cards).2 snap.height h'
    · simp only [crawlLoop, if_neg hlt]; exact h

theorem crawl_products_inv (N : Nat) (base m s n : String)
    (snaps : List Snapshot) (h0 : Nat) (db : List ProductRow) (fs : FS) :
    crawlInv N (crawl_products N base m s n snaps h0 db fs).1.1 :=
  crawlLoop_inv N base m s n snaps (CrawlState.mk 0 [] [] db) fs h0
    ⟨rfl, List.nodup_nil, rfl, Nat.zero_le N⟩

/-! ## Claims -/

/-- Claim C1: for every cap N the sequence of (identity, detail URL)
pairs processed by `crawl_products` contains no duplicate identities and
has length at most N; and for the scroll stream yielding identities
A1, A2, A1 with cap 2 the result is [A1, A2] and the loop stops at the
cap after two scroll actions, never triggering the third. -/
theorem C1_enumeration_dedup_and_cap :
    (∀ (N : Nat) (base m s n : String) (snaps : List Snapshot) (h0 : Nat)
        (db : List ProductRow) (fs : FS),
      (((crawl_products N base m s n snaps h0 db fs).1.1.processed.map
          Prod.fst).Nodup ∧
        (crawl_products N base m s n snaps h0 db fs).1.1.processed.length
          ≤ N)) ∧
    ((crawl_products 2 "https://x" "Men" "Shirts" "Casual" scenarioSnaps 0
        [] []).1.1.processed = [("A1", "u1"), ("A2", "u2")] ∧
      (crawl_products 2 "https://x" "Men" "Shirts" "Casual" scenarioSnaps 0
        [] []).2 = 2) := by
  constructor
  · intro N base m s n snaps h0 db fs
    obtain ⟨h1, h2, h3, h4⟩ := crawl_products_inv N base m s n snaps h0 db fs
    constructor
    · rw [h1]
      exact List.nodup_reverse.mpr h2
    · have hlen : (crawl_products N base m s n snaps h0 db
          fs).1.1.processed.length
          = ((crawl_products N base m s n snaps h0 db fs).1.1.processed.map
            Prod.fst).length := (List.length_map _ _).symm
      rw [hlen, h1, List.length_reverse, ← h3]
      exact h4
  · exact ⟨rfl, rfl⟩

/-- Claim C10: in the enumeration loop the identity is marked seen and
the counter incremented before extraction is attempted, so the counter
always equals the size of the seen set and the attempted pairs match the
seen set exactly; concretely, with cap 1 a card whose extraction raises
still consumes the cap (nothing is persisted for it, the next card is
never reached, and the identity is not retried). -/
theorem C10_count_equals_seen_before_extraction :
    (∀ (N : Nat) (base m s n : String) (snaps : List Snapshot) (h0 : Nat)
        (db : List ProductRow) (fs : FS),
      (crawl_products N base m s n snaps h0 db fs).1.1.crawled_count
          = (crawl_products N base m s n snaps h0 db
            fs).1.1.products_seen.length ∧
        (crawl_products N base m s n snaps h0 db fs).1.1.processed.map
            Prod.fst
          = (crawl_products N base m s n snaps h0 db
            fs).1.1.products_seen.reverse) ∧
    ((crawl_products 1 "https://x" "Men" "Shirts" "Casual" failSnaps 0 []
        []).1.1.crawled_count = 1 ∧
      (crawl_products 1 "https://x" "Men" "Shirts" "Casual" failSnaps 0 []
        []).1.1.products_seen = ["A1"] ∧
      (crawl_products 1 "https://x" "Men" "Shirts" "Casual" failSnaps 0 []
        []).1.1.processed = [("A1", "u1")] ∧
      (crawl_products 1 "https://x" "Men" "Shirts" "Casual" failSnaps 0 []
        []).1.1.products = [] ∧
      (crawl_products 1 "https://x" "Men" "Shirts" "Casual" failSnaps 0 []
        []).1.2 = []) := by
  constructor
  · intro N base m s n snaps h0 db fs
    obtain ⟨h1, _, h3, _⟩ := crawl_products_inv N base m s n snaps h0 db fs
    exact ⟨h3, h1⟩
  · exact ⟨rfl, rfl, rfl, rfl, rfl⟩

/-- Claim C3: `sanitize_filename` is total (a plain function of the
input text) and idempotent, and each character outside the kept class
{word characters, hyphen, underscore, U+0600 to U+06FF, space} is mapped
to an underscore. -/
theorem C3_sanitize_idempotent_total (x : String) (c : Char)
    (hc : isSanitizeKept c = false) :
    sanitize_filename (sanitize_filename x) = sanitize_filename x ∧
    sanitizeChar c = '_' ∧
    (sanitize_filename x).data = x.data.map sanitizeChar := by
  refine ⟨sanitize_filename_idem x, ?_, rfl⟩
  simp [sanitizeChar, hc]

/-- Witness for C3 at a concrete string and character. -/
theorem C3_witness :
    sanitize_filename (sanitize_filename "a/b c") = sanitize_filename "a/b c" ∧
    sanitizeChar '/' = '_' ∧
    (sanitize_filename "a/b c").data = "a/b c".data.map sanitizeChar :=
  C3_sanitize_idempotent_total "a/b c" '/' (by decide)

/-- Claim C2: persisting the same (main, sub, nested, identity) key
twice leaves the `products` table exactly as after the first write
(INSERT OR IGNORE: first write wins), while the JSON document at the
deterministic path is the second record (overwrite: last write wins). -/
theorem C2_store_first_write_document_last_write (base : String)
    (page1 page2 : DetailPage) (m s n pid : String)
    (db : List ProductRow) (fs : FS) :
    (extract_product_metadata base page2 m s n pid
        (extract_product_metadata base page1 m s n pid db fs).1
        (extract_product_metadata base page1 m s n pid db fs).2.1).1
      = (extract_product_metadata base page1 m s n pid db fs).1 ∧
    fsLookup
        (extract_product_metadata base page2 m s n pid
          (extract_product_metadata base page1 m s n pid db fs).1
          (extract_product_metadata base page1 m s n pid db fs).2.1).2.1
        (json_path_of m s n pid)
      = some (extract_product_metadata base page2 m s n pid
          (extract_product_metadata base page1 m s n pid db fs).1
          (extract_product_metadata base page1 m s n pid db fs).2.1).2.2 := by
  constructor
  · exact productRowOf_insert_ignored _ base page2 m s n pid
      (productRowOf_key_present db base page1 m s n pid)
  · exact fsLookup_fsWrite _ _ _

/-- Claim C8: extraction never aborts on an absent field marker: a
missing title marker yields the sentinel placeholder, every other
missing marker yields `none` (an empty map for the specs table), and the
partial record is still assembled, written as a document and present in
the `products` table under its mandatory identity fields. -/
theorem C8_missing_markers_yield_partial_record (base : String)
    (page : DetailPage) (m s n pid : String) (db : List ProductRow)
    (fs : FS)
    (h1 : page.subtitle = none) (h2 : page.sellingPrice = none)
    (h3 : page.rrpPrice = none) (h4 : page.discountPercent = none)
    (h5 : page.description = none) (h6 : page.specsTable = none)
    (h7 : page.featuresContent = none) :
    (extract_product_metadata base page m s n pid db fs).2.2.title
        = "No Title Found" ∧
    (extract_product_metadata base page m s n pid db fs).2.2.price = none ∧
    (extract_product_metadata base page m s n pid db fs).2.2.old_price
        = none ∧
    (extract_product_metadata base page m s n pid db fs).2.2.discount
        = none ∧
    (extract_product_metadata base page m s n pid db fs).2.2.description
        = none ∧
    (extract_product_metadata base page m s n pid db fs).2.2.specifications
        = [] ∧
    (extract_product_metadata base page m s n pid
        db fs).2.2.additional_details = none ∧
    (extract_product_metadata base page m s n pid db fs).2.2.product_id
        = pid ∧
    (extract_product_metadata base page m s n pid db fs).2.2.main_category
        = m ∧
    (extract_product_metadata base page m s n pid db fs).2.2.sub_category
        = s ∧
    (extract_product_metadata base page m s n pid
        db fs).2.2.nested_category = n ∧
    (extract_product_metadata base page m s n pid db fs).1.any
        (fun r => sameProductKey r m s n pid) = true ∧
    fsLookup (extract_product_metadata base page m s n pid db fs).2.1
        (json_path_of m s n pid)
      = some (extract_product_metadata base page m s n pid db fs).2.2 := by
  refine ⟨?_, ?_, ?_, ?_, ?_, ?_, ?_, rfl, rfl, rfl, rfl, ?_, ?_⟩
  · simp [extract_product_metadata, metadataOf, h1]
  · simp [extract_product_metadata, metadataOf, h2]
  · simp [extract_product_metadata, metadataOf, h3]
  · simp [extract_product_metadata, metadataOf, h4]
  · simp [extract_product_metadata, metadataOf, h5]
  · simp [extract_product_metadata, metadataOf, h6]
  · simp [extract_product_metadata, metadataOf, h7]
  · exact productRowOf_key_present db base page m s n pid
  · exact fsLookup_fsWrite _ _ _

/-- Witness for C8: a detail page missing every optional marker. -/
theorem C8_witness :
    (extract_product_metadata "https://x" emptyPage "M" "S" "N" "P1" []
        []).2.2.title = "No Title Found" ∧
    (extract_product_metadata "https://x" emptyPage "M" "S" "N" "P1" []
        []).2.2.price = none ∧
    (extract_product_metadata "https://x" emptyPage "M" "S" "N" "P1" []
        []).2.2.old_price = none ∧
    (extract_product_metadata "https://x" emptyPage "M" "S" "N" "P1" []
        []).2.2.discount = none ∧
    (extract_product_metadata "https://x" emptyPage "M" "S" "N" "P1" []
        []).2.2.description = none ∧
    (extract_product_metadata "https://x" emptyPage "M" "S" "N" "P1" []
        []).2.2.specifications = [] ∧
    (extract_product_metadata "https://x" emptyPage "M" "S" "N" "P1" []
        []).2.2.additional_details = none ∧
    (extract_product_metadata "https://x" emptyPage "M" "S" "N" "P1" []
        []).2.2.product_id = "P1" ∧
    (extract_product_metadata "https://x" emptyPage "M" "S" "N" "P1" []
        []).2.2.main_category = "M" ∧
    (extract_product_metadata "https://x" emptyPage "M" "S" "N" "P1" []
        []).2.2.sub_category = "S" ∧
    (extract_product_metadata "https://x" emptyPage "M" "S" "N" "P1" []
        []).2.2.nested_category = "N" ∧
    (extract_product_metadata "https://x" emptyPage "M" "S" "N" "P1" []
        []).1.any (fun r => sameProductKey r "M" "S" "N" "P1") = true ∧
    fsLookup (extract_product_metadata "https://x" emptyPage "M" "S" "N"
        "P1" [] []).2.1 (json_path_of "M" "S" "N" "P1")
      = some (extract_product_metadata "https://x" emptyPage "M" "S" "N"
        "P1" [] []).2.2 :=
  C8_missing_markers_yield_partial_record "https://x" emptyPage "M" "S"
    "N" "P1" [] [] rfl rfl rfl rfl rfl rfl rfl

/-- Claim C9: with three image markers carrying (truthy) src URLs where
the second download fails, the record keeps exactly the first and third
saved paths in document order, under 1-based positional filenames (the
third image keeps index 3), and the record is still persisted. -/
theorem C9_failed_asset_skipped_order_kept (base : String)
    (page : DetailPage) (m s n pid : String) (db : List ProductRow)
    (fs : FS) (u1 u2 u3 : String)
    (hu1 : u1 ≠ "") (hu2 : u2 ≠ "") (hu3 : u3 ≠ "")
    (himg : page.galleryImages
      = [ImgTag.mk (some u1) false, ImgTag.mk (some u2) true,
         ImgTag.mk (some u3) false]) :
    (extract_product_metadata base page m s n pid db fs).2.2.images
      = [joinPath (product_folder_path m s n pid)
          (pid ++ "_image_" ++ "1" ++ ".jpg"),
         joinPath (product_folder_path m s n pid)
          (pid ++ "_image_" ++ "3" ++ ".jpg")] ∧
    (extract_product_metadata base page m s n pid db fs).1.any
        (fun r => sameProductKey r m s n pid) = true ∧
    fsLookup (extract_product_metadata base page m s n pid db fs).2.1
        (json_path_of m s n pid)
      = some (extract_product_metadata base page m s n pid db fs).2.2 := by
  refine ⟨?_, productRowOf_key_present db base page m s n pid,
    fsLookup_fsWrite _ _ _⟩
  show buildImages base pid (product_folder_path m s n pid) 0
      page.galleryImages = _
  rw [himg]
  simp only [buildImages, save_image, if_neg hu1, if_neg hu2, if_neg hu3]
  rfl

/-- Witness for C9: a concrete page with three gallery images whose
middle download fails. -/
theorem C9_witness :
    (extract_product_metadata "https://x"
        (DetailPage.mk none none none none none none none
          [ImgTag.mk (some "/i1.jpg") false, ImgTag.mk (some "/i2.jpg") true,
           ImgTag.mk (some "/i3.jpg") false]) "M" "S" "N" "P1" []
        []).2.2.images
      = [joinPath (product_folder_path "M" "S" "N" "P1")
          ("P1" ++ "_image_" ++ "1" ++ ".jpg"),
         joinPath (product_folder_path "M" "S" "N" "P1")
          ("P1" ++ "_image_" ++ "3" ++ ".jpg")] ∧
    (extract_product_metadata "https://x"
        (DetailPage.mk none none none none none none none
          [ImgTag.mk (some "/i1.jpg") false, ImgTag.mk (some "/i2.jpg") true,
           ImgTag.mk (some "/i3.jpg") false]) "M" "S" "N" "P1" [] []).1.any
        (fun r => sameProductKey r "M" "S" "N" "P1") = true ∧
    fsLookup (extract_product_metadata "https://x"
        (DetailPage.mk none none none none none none none
          [ImgTag.mk (some "/i1.jpg") false, ImgTag.mk (some "/i2.jpg") true,
           ImgTag.mk (some "/i3.jpg") false]) "M" "S" "N" "P1" [] []).2.1
        (json_path_of "M" "S" "N" "P1")
      = some (extract_product_metadata "https://x"
        (DetailPage.mk none none none none none none none
          [ImgTag.mk (some "/i1.jpg") false, ImgTag.mk (some "/i2.jpg") true,
           ImgTag.mk (some "/i3.jpg") false]) "M" "S" "N" "P1" [] []).2.2 :=
  C9_failed_asset_skipped_order_kept "https://x" _ "M" "S" "N" "P1" [] []
    "/i1.jpg" "/i2.jpg" "/i3.jpg" (by decide) (by decide) (by decide) rfl

theorem parseLeaves_ok_iff (base : String) (ls : List LeafLink) :
    exceptOk (parseLeaves base ls) = ls.all (fun l => l.href.isSome) := by
  induction ls with
  | nil => rfl
  | cons l ls ih =>
    cases hl : l.href with
    | none => simp [parseLeaves, hl, exceptOk]
    | some v =>
      cases hr : parseLeaves base ls with
      | error e =>
        rw [hr] at ih
        simp [parseLeaves, hl, hr, exceptOk, List.all_cons, ← ih]
      | ok rest =>
        rw [hr] at ih
        simp [parseLeaves, hl, hr, exceptOk, List.all_cons, ← ih]

theorem parseTabs_ok_iff (base : String) (ts : List TabNode) :
    ∀ (subdict : SubCats),
      exceptOk (parseTabs base subdict ts)
        = ts.all (fun t => t.tabTitle.isSome &&
            t.links.all (fun l => l.href.isSome)) := by
  induction ts with
  | nil => intro subdict; rfl
  | cons t ts ih =>
    intro subdict
    cases htt : t.tabTitle with
    | none => simp [parseTabs, htt, exceptOk]
    | some tt =>
      have hleaves := parseLeaves_ok_iff base t.links
      cases hr : parseLeaves base t.links with
      | error e =>
        rw [hr] at hleaves
        simp [parseTabs, htt, hr, exceptOk, List.all_cons, ← hleaves]
      | ok leaves =>
        rw [hr] at hleaves
        simp [parseTabs, htt, hr, List.all_cons, ← hleaves,
          ih (dictSet subdict (pyStrip tt) leaves)]
        exact fun _ => rfl

theorem parseSupercats_ok_iff (base : String) (doc : List SupercatNode) :
    ∀ (cats : Categories),
      exceptOk (parseSupercats base cats doc)
        = doc.all (fun mc => mc.titleLink.isSome &&
            mc.tabs.all (fun t => t.tabTitle.isSome &&
              t.links.all (fun l => l.href.isSome))) := by
  induction doc with
  | nil => intro cats; rfl
  | cons mc mcs ih =>
    intro cats
    cases htl : mc.titleLink with
    | none => simp [parseSupercats, htl, exceptOk]
    | some t =>
      have htabs := parseTabs_ok_iff base mc.tabs []
      cases hr : parseTabs base [] mc.tabs with
      | error e =>
        rw [hr] at htabs
        simp [parseSupercats, htl, hr, exceptOk, List.all_cons, ← htabs]
      | ok subdict =>
        rw [hr] at htabs
        simp [parseSupercats, htl, hr, List.all_cons, ← htabs,
          ih (dictSet cats (pyStrip t) subdict)]
        exact fun _ => rfl

/-- Counterexample to claim C4 as stated: a navigation entry whose
title-link marker is absent makes `parse_categories` raise
(`find(...)` returns `None`, so `.text` raises `AttributeError`) instead
of being skipped. -/
theorem C4_counterexample :
    parse_categories "https://x" [SupercatNode.mk none []]
      = Except.error "AttributeError: supercat link" := rfl

/-- Claim C4 amended: discovery succeeds exactly on well-formed
navigation documents: `parse_categories` returns the mapping when every
node carries its required marker, and it raises and aborts (instead of
skipping the node) whenever some title link, tab title, or leaf href is
absent. -/
theorem C4_amended_parse_ok_iff_wellformed (base : String)
    (doc : List SupercatNode) :
    exceptOk (parse_categories base doc) = navWellFormed doc :=
  parseSupercats_ok_iff base doc []

/-- Counterexample to claim C5 as stated: with a pre-existing products
row, a non-affirmative response still leaves the store changed, because
the products table was dropped and recreated at process start, before
the prompt. -/
theorem C5_counterexample :
    runProcess "https://x" 2 (Site.mk [] []) "no"
        (DBState.mk [] [sampleRow]) [] = Except.ok (DBState.mk [] [], []) ∧
    DBState.mk [] [] ≠ DBState.mk [] [sampleRow] := by
  exact ⟨rfl, by decide⟩

/-- Claim C5 amended: a non-affirmative response aborts before any
crawling — no category or product rows are inserted and no documents
are written after the prompt, and the categories table keeps its prior
rows — but the pre-existing products rows are already gone, erased by
the startup drop-and-recreate of the products table. -/
theorem C5_amended_abort_after_reset (base : String) (N : Nat)
    (site : Site) (confirm : String) (db : DBState) (fs : FS)
    (cats : Categories)
    (hp : parse_categories base site.nav = Except.ok cats)
    (hc : pyLower (pyStrip confirm) ≠ "yes") :
    runProcess base N site confirm db fs
      = Except.ok (DBState.mk db.categories [], fs) := by
  unfold runProcess crawl_categories moduleInit
  rw [hp]
  exact if_pos hc

/-- Witness for the amended C5: answering `no` with pre-existing rows in
both tables. -/
theorem C5_witness :
    runProcess "https://x" 1 (Site.mk [] []) "no"
        (DBState.mk [sampleCatRow] [sampleRow]) []
      = Except.ok (DBState.mk [sampleCatRow] [], []) :=
  C5_amended_abort_after_reset "https://x" 1 (Site.mk [] []) "no"
    (DBState.mk [sampleCatRow] [sampleRow]) [] [] rfl (by decide)

theorem foldLeaves_categories (base : String) (N : Nat) (site : Site)
    (m s : String) (leaves : List (String × String)) :
    ∀ (st : DBState × FS),
      ((leaves.foldl (fun st2 leaf => crawlLeaf base N site m s leaf st2)
        st).1.categories)
        = leaves.foldl
            (fun cats leaf => insertOrIgnoreCategory cats m s leaf.2)
            st.1.categories := by
  induction leaves with
  | nil => intro st; rfl
  | cons leaf rest ih =>
    intro st
    simp only [List.foldl_cons]
    rw [ih (crawlLeaf base N site m s leaf st)]
    rfl

theorem foldInsertCategory_ignored (m s : String)
    (rest : List (String × String)) :
    ∀ (cats : List CatRow),
      cats.any (fun r => sameCategoryKey r m s) = true →
      rest.foldl (fun cats2 leaf => insertOrIgnoreCategory cats2 m s leaf.2)
        cats = cats := by
  induction rest with
  | nil => intro cats _; rfl
  | cons leaf rest ih =>
    intro cats h
    simp only [List.foldl_cons]
    rw [insertOrIgnoreCategory, if_pos h]
    exact ih cats h

theorem any_false_filter_nil {α : Type} (p : α → Bool) (l : List α)
    (h : l.any p = false) : l.filter p = [] := by
  induction l with
  | nil => rfl
  | cons a l ih =>
    rw [List.any_cons] at h
    cases hpa : p a with
    | true => rw [hpa] at h; simp at h
    | false =>
      rw [hpa] at h
      simp only [Bool.false_or] at h
      rw [List.filter_cons_of_neg (by simp [hpa])]
      exact ih h

/-- Counterexample to claim C6 as stated: two distinct nested categories
under (Men, Shirts) collapse to one `categories` row whose url is the
FIRST-written leaf URL (INSERT OR IGNORE), not the last-written one the
claim asserts. -/
theorem C6_counterexample :
    runProcess "https://x" 2 (Site.mk navTwoLeaves []) "yes"
        (DBState.mk [] []) []
      = Except.ok
          (DBState.mk [CatRow.mk "Men" "Shirts" "https://x/u1"] [], []) ∧
    "https://x/u1" ≠ "https://x/u2" := ⟨rfl, by decide⟩

/-- Claim C6 amended: distinct nested categories sharing
(mainCategory, subCategory) end up as exactly one `categories` row, and
its url column is the FIRST-written leaf URL (ignore-on-conflict keeps
the earliest insert). -/
theorem C6_amended_one_row_first_url (base : String) (N : Nat)
    (site : Site) (m s : String) (l : String × String)
    (rest : List (String × String)) (db : DBState) (fs : FS)
    (h : db.categories.any (fun r => sameCategoryKey r m s) = false) :
    ((crawlTree base N site [(m, [(s, l :: rest)])] db fs).1.categories.filter
        (fun r => sameCategoryKey r m s))
      = [CatRow.mk m s l.2] := by
  have htree : crawlTree base N site [(m, [(s, l :: rest)])] db fs
      = (l :: rest).foldl (fun st2 leaf => crawlLeaf base N site m s leaf st2)
          (db, fs) := rfl
  rw [htree, foldLeaves_categories base N site m s (l :: rest) (db, fs)]
  simp only [List.foldl_cons]
  have hfirst : insertOrIgnoreCategory db.categories m s l.2
      = db.categories ++ [CatRow.mk m s l.2] := by
    rw [insertOrIgnoreCategory, if_neg (by simp [h])]
  rw [hfirst]
  have hpresent : (db.categories ++ [CatRow.mk m s l.2]).any
      (fun r => sameCategoryKey r m s) = true := by
    simp [List.any_append, sameCategoryKey]
  rw [foldInsertCategory_ignored m s rest _ hpresent]
  rw [List.filter_append, any_false_filter_nil _ _ h]
  simp [sameCategoryKey]

/-- Witness for the amended C6 on concrete leaves. -/
theorem C6_witness :
    ((crawlTree "https://x" 2 (Site.mk [] [])
        [("Men", [("Shirts",
          [("A", "https://x/u1"), ("B", "https://x/u2")])])]
        (DBState.mk [] []) []).1.categories.filter
          (fun r => sameCategoryKey r "Men" "Shirts"))
      = [CatRow.mk "Men" "Shirts" "https://x/u1"] :=
  C6_amended_one_row_first_url "https://x" 2 (Site.mk [] []) "Men" "Shirts"
    ("A", "https://x/u1") [("B", "https://x/u2")] (DBState.mk [] []) [] rfl

theorem processCard_fst (base m s n : String) (c : Card) (st : CrawlState)
    (fs fs' : FS) :
    (processCard base m s n (st, fs) c).1
      = (processCard base m s n (st, fs') c).1 := by
  cases hc : c.productId with
  | none => simp only [processCard, hc]
  | some pid =>
    simp only [processCard, hc]
    by_cases hg : pid ≠ "" ∧ pid ∉ st.products_seen
    · rw [if_pos hg, if_pos hg]
      cases hl : c.linkFails with
      | true => rfl
      | false =>
        simp only [Bool.false_eq_true, if_false]
        cases he : c.extractFails with
        | true => rfl
        | false => simp only [Bool.false_eq_true, if_false]; rfl
    · rw [if_neg hg, if_neg hg]

theorem processCards_fst (N : Nat) (base m s n : String) (cs : List Card) :
    ∀ (st : CrawlState) (fs fs' : FS),
      (processCards N base m s n (st, fs) cs).1
        = (processCards N base m s n (st, fs') cs).1 := by
  induction cs with
  | nil => intro st fs fs'; rfl
  | cons c cs ih =>
    intro st fs fs'
    by_cases hge : N ≤ st.crawled_count
    · simp only [processCards, if_pos hge]
    · simp only [processCards, if_neg hge]
      have h1 := processCard_fst base m s n c st fs fs'
      calc (processCards N base m s n (processCard base m s n (st, fs) c)
            cs).1
          = (processCards N base m s n
              ((processCard base m s n (st, fs) c).1,
                (processCard base m s n (st, fs) c).2) cs).1 := rfl
        _ = (processCards N base m s n
              ((processCard base m s n (st, fs') c).1,
                (processCard base m s n (st, fs) c).2) cs).1 := by rw [h1]
        _ = (processCards N base m s n
              ((processCard base m s n (st, fs') c).1,
                (processCard base m s n (st, fs') c).2) cs).1 :=
            ih (processCard base m s n (st, fs') c).1
              (processCard base m s n (st, fs) c).2
              (processCard base m s n (st, fs') c).2
        _ = (processCards N base m s n (processCard base m s n (st, fs') c)
              cs).1 := rfl

theorem crawlLoop_fst (N : Nat) (base m s n : String)
    (snaps : List Snapshot) :
    ∀ (st : CrawlState) (fs fs' : FS) (h0 : Nat),
      (crawlLoop N base m s n snaps (st, fs) h0).1.1
        = (crawlLoop N base m s n snaps (st, fs') h0).1.1 := by
  induction snaps with
  | nil => intro st fs fs' h0; rfl
  | cons snap rest ih =>
    intro st fs fs' h0
    by_cases hlt : st.crawled_count < N
    · simp only [crawlLoop, if_pos hlt]
      have h1 := processCards_fst N base m s n snap.cards st fs fs'
      by_cases hh : snap.height = h0
      · simp only [if_pos hh]
        exact h1
      · simp only [if_neg hh]
        calc (crawlLoop N base m s n rest
              (processCards N base m s n (st, fs) snap.cards)
              snap.height).1.1
            = (crawlLoop N base m s n rest
                ((processCards N base m s n (st, fs) snap.cards).1,
                  (processCards N base m s n (st, fs) snap.cards).2)
                snap.height).1.1 := rfl
          _ = (crawlLoop N base m s n rest
                ((processCards N base m s n (st, fs') snap.cards).1,
                  (processCards N base m s n (st, fs) snap.cards).2)
                snap.height).1.1 := by rw [h1]
          _ = (crawlLoop N base m s n rest
                ((processCards N base m s n (st, fs') snap.cards).1,
                  (processCards N base m s n (st, fs') snap.cards).2)
                snap.height).1.1 :=
              ih (processCards N base m s n (st, fs') snap.cards).1
                (processCards N base m s n (st, fs) snap.cards).2
                (processCards N base m s n (st, fs') snap.cards).2
                snap.height
          _ = (crawlLoop N base m s n rest
                (processCards N base m s n (st, fs') snap.cards)
                snap.height).1.1 := rfl
    · simp only [crawlLoop, if_neg hlt]

theorem crawlLeaf_products (base : String) (N : Nat) (site : Site)
    (m s : String) (leaf : String × String) (st st' : DBState × FS)
    (h : st.1.products = st'.1.products) :
    (crawlLeaf base N site m s leaf st).1.products
      = (crawlLeaf base N site m s leaf st').1.products := by
  show (crawlLoop N base m s leaf.1 (sitePage site leaf.2).2
      (CrawlState.mk 0 [] [] st.1.products, st.2)
      (sitePage site leaf.2).1).1.1.products = _
  rw [h]
  have := crawlLoop_fst N base m s leaf.1 (sitePage site leaf.2).2
    (CrawlState.mk 0 [] [] st'.1.products) st.2 st'.2
    (sitePage site leaf.2).1
  rw [this]
  rfl

theorem foldl_preserves {α σ : Type} (R : σ → σ → Prop) (f : σ → α → σ)
    (hf : ∀ s s' a, R s s' → R (f s a) (f s' a)) :
    ∀ (l : List α) (s s' : σ), R s s' → R (l.foldl f s) (l.foldl f s') := by
  intro l
  induction l with
  | nil => intro s s' h; exact h
  | cons a l ih => intro s s' h; exact ih (f s a) (f s' a) (hf s s' a h)

theorem crawlTree_products_congr (base : String) (N : Nat) (site : Site)
    (cats : Categories) (db db' : DBState) (fs fs' : FS)
    (h : db.products = db'.products) :
    (crawlTree base N site cats db fs).1.products
      = (crawlTree base N site cats db' fs').1.products := by
  refine foldl_preserves
    (fun x y => x.1.products = y.1.products)
    (fun st mainEntry =>
      mainEntry.2.foldl
        (fun st2 subEntry =>
          subEntry.2.foldl
            (fun st3 leaf => crawlLeaf base N site mainEntry.1 subEntry.1
              leaf st3)
            st2)
        st)
    ?_ cats (db, fs) (db', fs') h
  intro u u' mainEntry hu
  refine foldl_preserves
    (fun x y => x.1.products = y.1.products)
    (fun st2 subEntry =>
      subEntry.2.foldl
        (fun st3 leaf => crawlLeaf base N site mainEntry.1 subEntry.1
          leaf st3)
        st2)
    ?_ mainEntry.2 u u' hu
  intro v v' subEntry hv
  exact foldl_preserves
    (fun x y => x.1.products = y.1.products)
    (fun st3 leaf => crawlLeaf base N site mainEntry.1 subEntry.1 leaf st3)
    (fun w w' leaf hw =>
      crawlLeaf_products base N site mainEntry.1 subEntry.1 leaf w w' hw)
    subEntry.2 v v' hv

/-- Claim C7: at process start the products table is dropped and
recreated empty while the categories table keeps its rows, and two
sequential confirmed runs over identical site content leave the second
products table of the second run equal to that of the first (same rows, hence same
row count). -/
theorem C7_products_rebuilt_runs_stable (base : String) (N : Nat)
    (site : Site) (db0 : DBState) (fs0 : FS) (db1 db2 : DBState)
    (fs1 fs2 : FS)
    (h1 : runProcess base N site "yes" db0 fs0 = Except.ok (db1, fs1))
    (h2 : runProcess base N site "yes" db1 fs1 = Except.ok (db2, fs2)) :
    (moduleInit db0).products = [] ∧
    (moduleInit db0).categories = db0.categories ∧
    db2.products = db1.products ∧
    db2.products.length = db1.products.length := by
  have key : db2.products = db1.products := by
    unfold runProcess crawl_categories at h1 h2
    cases hp : parse_categories base site.nav with
    | error e =>
      rw [hp] at h1
      exact absurd h1 (by simp)
    | ok cats =>
      rw [hp] at h1 h2
      have e1 : crawlTree base N site cats (moduleInit db0) fs0
          = (db1, fs1) :=
        Except.ok.inj (show Except.ok (crawlTree base N site cats
          (moduleInit db0) fs0) = Except.ok (db1, fs1) from h1)
      have e2 : crawlTree base N site cats (moduleInit db1) fs1
          = (db2, fs2) :=
        Except.ok.inj (show Except.ok (crawlTree base N site cats
          (moduleInit db1) fs1) = Except.ok (db2, fs2) from h2)
      have hcongr := crawlTree_products_congr base N site cats
        (moduleInit db0) (moduleInit db1) fs0 fs1 rfl
      rw [e1, e2] at hcongr
      exact hcongr.symm
  exact ⟨rfl, rfl, key, by rw [key]⟩

/-- Witness for C7: two sequential confirmed runs over the one-leaf
sample site. -/
theorem C7_witness :
    (moduleInit (DBState.mk [] [])).products = [] ∧
    (moduleInit (DBState.mk [] [])).categories = ([] : List CatRow) ∧
    (DBState.mk [catRowMen] []).products
        = (DBState.mk [catRowMen] []).products ∧
    (DBState.mk [catRowMen] []).products.length
        = (DBState.mk [catRowMen] []).products.length :=
  C7_products_rebuilt_runs_stable "https://x" 2 (Site.mk navSample [])
    (DBState.mk [] []) [] (DBState.mk [catRowMen] [])
    (DBState.mk [catRowMen] []) [] [] rfl rfl
